import Mathlib

/-!
Shallow embedding of the core of `smof.py` (btski/smof): the FASTA record
parser (`FSeqGenerator.next`), the classification / feature aggregator
(`SeqSummary.add_seq` and its helpers `_handle_gaps`, `_handle_case`,
`_handle_type`, and the utility `counter_caser`), the report logic of
`Sniff.write`, and the row-emission structure of `Complexity.generator`.

Characters are modelled as their code points (`Nat`); Python strings that
carry sequence data are `List Nat`.  Python dictionaries with string keys
are association lists, and `d[k] += v` is `dictIncr`, which fails with a
`KeyError` exactly when the key is absent, as in Python.  Fallible Python
code (uncaught `KeyError` / `IndexError` / `SystemExit` /
`UnicodeEncodeError`) is modelled with `Except PyErr`.
-/

/-- Code point of a character, used to write character constants. -/
def ch (c : Char) : Nat := c.toNat

/-- A Python string literal as a list of code points. -/
def pystr (s : String) : List Nat := s.toList.map ch

/-- Exceptions that the modelled Python code can raise. -/
inductive PyErr where
  | keyError (k : String)
  | indexError
  | systemExit
  | unicodeEncodeError
deriving DecidableEq, Repr

deriving instance DecidableEq for Except

/-- Python `str.islower` restricted to one character, for ASCII code points:
true exactly on `a`-`z` (codes 97-122). -/
def pyIsLower (c : Nat) : Bool := decide (97 ≤ c ∧ c ≤ 122)

/-- Python `str.isupper` restricted to one character, for ASCII code points:
true exactly on `A`-`Z` (codes 65-90). -/
def pyIsUpper (c : Nat) : Bool := decide (65 ≤ c ∧ c ≤ 90)

/-- Python `str.upper` on one ASCII code point. -/
def pyToUpper (c : Nat) : Nat := if 97 ≤ c ∧ c ≤ 122 then c - 32 else c

/-- Python `sub in s` on lists of code points: contiguous-substring test. -/
def pyStrIn (sub : List Nat) : List Nat → Bool
  | [] => sub.isEmpty
  | c :: t => sub.isPrefixOf (c :: t) || pyStrIn sub t

/-- Python `sub in s` for strings: contiguous-substring test. -/
def pyIn (sub s : String) : Bool := pyStrIn (pystr sub) (pystr s)

-- Alphabet tables (class Alphabet, smof.py lines 87-101).  Sets of
-- characters become lists of code points; membership is `List.contains`.

/-- `Alphabet.PROT = set('ACDEFGHIKLMNPQRSTUVWYX*')`. -/
def PROT : List Nat := pystr "ACDEFGHIKLMNPQRSTUVWYX*"

/-- `Alphabet.PROT_AMB = set('BZJ')`. -/
def PROT_AMB : List Nat := pystr "BZJ"

/-- `Alphabet.PROT_EXC = set('EFILQPXJZ*')`. -/
def PROT_EXC : List Nat := pystr "EFILQPXJZ*"

/-- `Alphabet.DNA = set('ACGTN')`. -/
def DNA : List Nat := pystr "ACGTN"

/-- `Alphabet.DNA_AMB = set('RYSWKMDBHV')`. -/
def DNA_AMB : List Nat := pystr "RYSWKMDBHV"

/-- `Alphabet.RNA = set('ACGUN')`. -/
def RNA : List Nat := pystr "ACGUN"

/-- `Alphabet.GAP = set('.-_')`. -/
def GAP : List Nat := pystr ".-_"

/-- `Alphabet.STOP = {'TAG','TAA','TGA','UAG','UAA','UGA'}`. -/
def STOP : List (List Nat) :=
  [pystr "TAG", pystr "TAA", pystr "TGA", pystr "UAG", pystr "UAA", pystr "UGA"]

/-- The string `'ACGTUN'` iterated over in `_handle_type` line 426. -/
def ACGTUN : List Nat := pystr "ACGTUN"

-- Python dictionaries with string keys and integer counts.

/-- A Python dict from string keys to counts, as an association list. -/
abbrev Dict := List (String × Nat)

/-- Python `d[k] += n`: raises `KeyError k` when `k` is not a key of `d`. -/
def dictIncr (d : Dict) (k : String) (n : Nat) : Except PyErr Dict :=
  match d with
  | [] => .error (.keyError k)
  | (k', v) :: t =>
    if k' = k then .ok ((k', v + n) :: t)
    else (dictIncr t k n).map (fun t' => (k', v) :: t')

/-- Look up a key in a modelled dict. -/
def dictGet (d : Dict) (k : String) : Option Nat :=
  (d.find? (fun p => p.1 = k)).map (fun p => p.2)

/-- Sum of all counts of a modelled dict (`sum(d.values())`). -/
def sumDict (d : Dict) : Nat := (d.map (fun p => p.2)).sum

/-- Convert a Python bool used as an int summand (`d[k] += bool`). -/
def b2n (b : Bool) : Nat := if b then 1 else 0

/-- Python `set.update([x])` on a set modelled as a duplicate-free list. -/
def setInsert (l : List (List Nat)) (x : List Nat) : List (List Nat) :=
  if x ∈ l then l else l ++ [x]

/-- `md5(bytes(s, 'ascii')).digest()` of smof.py lines 328-329.  The md5
digest is modelled as the byte content itself (an injective fingerprint);
`bytes(s, 'ascii')` raises `UnicodeEncodeError` on a non-ASCII code
point, which is modelled faithfully. -/
def md5ascii (s : List Nat) : Except PyErr (List Nat) :=
  if s.all (fun c => c < 128) then .ok s else .error .unicodeEncodeError

/-- An FSeq record (class FSeq, smof.py line 131): a header and a sequence. -/
structure FSeq where
  header : List Nat
  seq : List Nat
deriving DecidableEq, Repr

-- `counter_caser` (smof.py lines 455-465), default `lower=False` branch:
-- keep keys that `isupper()`, fold keys that `islower()` up, and drop
-- every other key (characters such as `*` are neither).  A Counter is
-- modelled by the multiset of its occurrences.

/-- Per-occurrence action of `counter_caser(counter)` (smof.py 463-464). -/
def caserStep (c : Nat) : Option Nat :=
  if pyIsUpper c then some c
  else if pyIsLower c then some (pyToUpper c) else none

/-- `counter_caser(counter)` (smof.py lines 455-465, `lower=False`). -/
def counter_caser (s : List Nat) : List Nat := s.filterMap caserStep

/-- `SeqSummary._handle_case` (smof.py lines 398-408), the returned case
label (the `ncase` increment is performed by the caller model). -/
def handle_case (s : List Nat) : String :=
  if s.any pyIsLower && s.any pyIsUpper then "mixedcase"
  else if s.any pyIsLower then "lowercase"
  else "uppercase"

/-- `SeqSummary._handle_type` (smof.py lines 410-436), the returned type
label.  The float comparison `... / sum(counts.values()) > 0.8` on line 426
is embedded as the exact rational comparison `5 * acgtun > 4 * total`. -/
def handle_type (s : List Nat) : String :=
  if s.all (fun c => DNA.contains c) then "dna"
  else if s.all (fun c => RNA.contains c) then "rna"
  else if s.any (fun c => PROT_EXC.contains c) then
    (if s.all (fun c => (PROT ++ PROT_AMB).contains c) then "prot" else "illegal")
  else if s.all (fun c => (PROT ++ PROT_AMB).contains c) then
    (if 5 * s.countP (fun c => ACGTUN.contains c) > 4 * s.length then
      (if s.contains (ch 'U') then "rna" else "dna")
     else "ambiguous")
  else "illegal"

/-- The case-folded occurrence list `add_seq` hands to `_handle_type`
(smof.py lines 339-342): `counter_caser` is applied unless the substring
test `scase not in 'upper'` fails. -/
def foldedCounts (s : List Nat) : List Nat :=
  if pyIn (handle_case s) "upper" then s else counter_caser s

/-- The molecule type `add_seq` computes for a record whose occurrence list
is `s` (smof.py lines 339-345). -/
def classifySeq (s : List Nat) : String := handle_type (foldedCounts s)

-- The ORF feature key chosen by the dna/rna branch of `add_seq`
-- (smof.py lines 355-389).

/-- `codons_1 = [seq.seq[i:i+3].upper() for i in range(0, len(seq.seq) - 3, 3)]`
(smof.py line 362).  `range(0, n - 3, 3)` has `(n - 3 + 2) / 3` elements in
natural arithmetic (empty when `n ≤ 3`, matching Python's empty range for a
non-positive stop). -/
def codons_1 (s : List Nat) : List (List Nat) :=
  (List.range ((s.length - 3 + 2) / 3)).map
    (fun j => ((s.drop (3 * j)).take 3).map pyToUpper)

/-- `seq.seq[-3:]`: the last three characters (the whole string when it is
shorter than three). -/
def lastThree (s : List Nat) : List Nat := s.drop (s.length - 3)

/-- The nfeat key selected by smof.py lines 358-389 for a dna/rna record
with (already ungapped) sequence `s`, or `IndexError` when `codons_1` is
empty and `codons_1[0]` (line 363) fails. -/
def nfeatKey (s : List Nat) : Except PyErr String :=
  match codons_1 s with
  | [] => .error .indexError
  | c0 :: cs =>
    let triple : Bool := s.length % 3 = 0
    let tstop : Bool := STOP.contains ((lastThree s).map pyToUpper)
    let start_1 : Bool := c0 = pystr "ATG"
    let stop_1 : Bool := STOP.contains ((c0 :: cs).getLast (by simp))
    let internal_stop_1 : Bool := ((c0 :: cs).dropLast).any (fun c => STOP.contains c)
    if start_1 && triple && stop_1 && !internal_stop_1 then .ok "start|coding|stop"
    else if start_1 && triple && stop_1 && internal_stop_1 then .ok "start|nonsense|stop"
    else if start_1 && triple && !stop_1 && !internal_stop_1 then .ok "start|coding"
    else if start_1 && triple && !stop_1 && internal_stop_1 then .ok "start|nonsense"
    else if !start_1 && tstop && triple && !internal_stop_1 then .ok "coding|stop"
    else if start_1 && tstop && !triple then .ok "start|n|stop"
    else if start_1 && !tstop then .ok "start"
    else if !start_1 && !tstop then .ok "stop"
    else .ok "not-CDS"

/-- Python `l[0]` on a list of code points (`IndexError` when empty). -/
def headE : List Nat → Except PyErr Nat
  | [] => .error .indexError
  | c :: _ => .ok c

/-- Python `l[-1]` on a list of code points (`IndexError` when empty). -/
def lastE (s : List Nat) : Except PyErr Nat :=
  match s.getLast? with
  | none => .error .indexError
  | some c => .ok c

/-- The protein-feature updates of smof.py lines 347-354: `ufeat` and
`pfeat` increments for a prot record.  `s` is the (ungapped) raw sequence,
`counts` the case-folded occurrence list.  `counts['*']` on a Counter
returns 0 for a missing key; the comparison `(counts['*'] - tstop) > 0`
is over Python ints, embedded via `Int`. -/
def protFeats (pf uf : Dict) (s counts : List Nat) : Except PyErr (Dict × Dict) := do
  let uf ← dictIncr uf "unknown" (b2n (counts.contains (ch 'X')))
  let uf ← dictIncr uf "ambiguous" (b2n (counts.any (fun c => PROT_AMB.contains c)))
  let pf ← dictIncr pf "selenocysteine" (b2n (counts.contains (ch 'U')))
  let c0 ← headE s
  let pf ← dictIncr pf "initial-Met" (b2n (pyToUpper c0 = ch 'M'))
  let cl ← lastE s
  let tstop : Bool := cl = ch '*'
  let pf ← dictIncr pf "terminal-stop" (b2n tstop)
  let pf ← dictIncr pf "internal-stop"
    (b2n (((counts.count (ch '*') : Int) - (if tstop then 1 else 0)) > 0))
  pure (pf, uf)

/-- The nucleotide-feature updates of smof.py lines 356-389: `ufeat`
increments and the single `nfeat` increment for a dna/rna record. -/
def nuclFeats (nf uf : Dict) (s counts : List Nat) : Except PyErr (Dict × Dict) := do
  let uf ← dictIncr uf "unknown" (b2n (counts.contains (ch 'N')))
  let uf ← dictIncr uf "ambiguous" (b2n (counts.any (fun c => DNA_AMB.contains c)))
  let key ← nfeatKey s
  let nf ← dictIncr nf key 1
  pure (nf, uf)

/-- `re.sub('[._-]', '', seq)` of `FSeq.ungap` (smof.py line 213). -/
def ungap (s : List Nat) : List Nat := s.filter (fun c => !GAP.contains c)

/-- The sequence `add_seq` works with after gap handling (smof.py lines
334-337): ungapped exactly when a gap character occurred. -/
def seqAfterGaps (seq0 : List Nat) : List Nat :=
  if seq0.any (fun c => GAP.contains c) then ungap seq0 else seq0

/-- The counter updates of `SeqSummary.add_seq` (smof.py lines 331-389)
on the five count dictionaries, in source order: gap check (`_handle_gaps`,
which increments the missing key `'ngapped'`), optional ungapping and
recount, `_handle_case`, conditional `counter_caser` fold, `_handle_type`,
then the type-specific feature updates. -/
def addSeqCounters (nt nc pf nf uf : Dict) (seq0 : List Nat) :
    Except PyErr (Dict × Dict × Dict × Dict × Dict) :=
  match (if seq0.any (fun c => GAP.contains c)
         then dictIncr uf "ngapped" 1 else Except.ok uf) with
  | .error e => .error e
  | .ok uf1 =>
    match dictIncr nc (handle_case (seqAfterGaps seq0)) 1 with
    | .error e => .error e
    | .ok nc1 =>
      match dictIncr nt (classifySeq (seqAfterGaps seq0)) 1 with
      | .error e => .error e
      | .ok nt1 =>
        if classifySeq (seqAfterGaps seq0) = "prot" then
          match protFeats pf uf1 (seqAfterGaps seq0)
                  (foldedCounts (seqAfterGaps seq0)) with
          | .error e => .error e
          | .ok (pf1, uf2) => .ok (nt1, nc1, pf1, nf, uf2)
        else if classifySeq (seqAfterGaps seq0) = "dna" ∨
                classifySeq (seqAfterGaps seq0) = "rna" then
          match nuclFeats nf uf1 (seqAfterGaps seq0)
                  (foldedCounts (seqAfterGaps seq0)) with
          | .error e => .error e
          | .ok (nf1, uf2) => .ok (nt1, nc1, pf, nf1, uf2)
        else .ok (nt1, nc1, pf, nf, uf1)

/-- The state of a `SeqSummary` (smof.py lines 286-319): the two digest
sets and the five count dictionaries. -/
structure SeqSummary where
  seqs : List (List Nat)
  headers : List (List Nat)
  ntype : Dict
  ncase : Dict
  pfeat : Dict
  nfeat : Dict
  ufeat : Dict
deriving DecidableEq, Repr

/-- `SeqSummary.__init__` (smof.py lines 287-319). -/
def SeqSummary.init : SeqSummary where
  seqs := []
  headers := []
  ntype := [("prot", 0), ("dna", 0), ("rna", 0), ("illegal", 0), ("ambiguous", 0)]
  ncase := [("uppercase", 0), ("lowercase", 0), ("mixedcase", 0)]
  pfeat := [("selenocysteine", 0), ("initial-Met", 0), ("internal-stop", 0),
            ("terminal-stop", 0)]
  nfeat := [("start|coding|stop", 0), ("start|coding", 0), ("start|nonsense|stop", 0),
            ("start|nonsense", 0), ("coding|stop", 0), ("nonsense|stop", 0),
            ("start|n|stop", 0), ("start", 0), ("stop", 0), ("not-CDS", 0)]
  ufeat := [("gapped", 0), ("unknown", 0), ("ambiguous", 0)]

/-- `SeqSummary.add_seq` (smof.py lines 321-389): md5 digests of sequence
and header are added to the two sets, then the counters are updated. -/
def SeqSummary.add_seq (st : SeqSummary) (q : FSeq) : Except PyErr SeqSummary :=
  match md5ascii q.seq with
  | .error e => .error e
  | .ok sdig =>
    match md5ascii q.header with
    | .error e => .error e
    | .ok hdig =>
      match addSeqCounters st.ntype st.ncase st.pfeat st.nfeat st.ufeat q.seq with
      | .error e => .error e
      | .ok (nt, nc, pf, nf, uf) =>
        .ok ⟨setInsert st.seqs sdig, setInsert st.headers hdig, nt, nc, pf, nf, uf⟩

/-- `sum(seqsum.ncase.values())` (smof.py line 1313): the record count the
sniff report derives from the case counters. -/
def nseqsOf (st : SeqSummary) : Nat := sumDict st.ncase

/-- `has_degen_seqs = nseqs != len(seqsum.seqs)` (smof.py line 1316): the
sequence-duplication flag of the sniff report. -/
def hasDegenSeqs (st : SeqSummary) : Bool := nseqsOf st ≠ st.seqs.length

-- The record parser `FSeqGenerator.next` (smof.py lines 107-129), as a
-- fold over input lines with an explicit accumulator state.  The consumer
-- drains the generator to a list; an uncaught exception (`IndexError` from
-- `line[0]` on a blank line, `SystemExit` from content before the first
-- header or from an empty stream) aborts with no records.

/-- Python whitespace stripped by `str.strip()`: space, tab, newline,
carriage return, vertical tab, form feed. -/
def isPySpace (c : Nat) : Bool := [32, 9, 10, 13, 11, 12].contains c

/-- Python `line.strip()` on a list of code points. -/
def pyStrip (l : List Nat) : List Nat :=
  ((l.dropWhile isPySpace).reverse.dropWhile isPySpace).reverse

/-- Accumulator state of `FSeqGenerator.next`: the body lines collected so
far (`seq_list`), the pending `header`, the yield count `nseqs`, and the
records yielded so far. -/
structure PState where
  seqList : List (List Nat)
  header : List Nat
  nseqs : Nat
  recs : List FSeq
deriving DecidableEq, Repr

/-- The initial parser state (`seq_list = []`, `header = ''`, `nseqs = 0`). -/
def PState.init : PState := ⟨[], [], 0, []⟩

/-- Flush the accumulated record: `yield FSeq(header, ''.join(seq_list))`
with `nseqs += 1` (smof.py lines 114-116 and 124-126). -/
def flushRec (st : PState) : PState :=
  { st with nseqs := st.nseqs + 1,
            recs := st.recs ++ [⟨st.header, st.seqList.flatten⟩] }

/-- One iteration of the line loop of `FSeqGenerator.next` (smof.py lines
111-123).  The stripped line is inspected: `line[0]` raises `IndexError`
on a blank line; a `>` line flushes the previous record when `seq_list` is
non-empty and installs `line.split('>')[1]` as the new header; any other
line is appended to the body when a header is pending and otherwise raises
`SystemExit` ("First line must begin with '>'"). -/
def processLine (st : PState) (line : List Nat) : Except PyErr PState :=
  match pyStrip line with
  | [] => .error .indexError
  | c :: rest =>
    if c = ch '>' then
      let st1 := if st.seqList.isEmpty then st else flushRec st
      .ok { st1 with seqList := [], header := rest.takeWhile (fun x => x ≠ ch '>') }
    else if st.header.isEmpty then .error .systemExit
    else .ok { st with seqList := st.seqList ++ [c :: rest] }

/-- The epilogue of `FSeqGenerator.next` (smof.py lines 124-129): flush the
pending record when a header is present, then raise `SystemExit` when no
record was ever yielded. -/
def finishParse (st : PState) : Except PyErr (List FSeq) :=
  let st1 := if st.header.isEmpty then st else flushRec st
  if st1.nseqs = 0 then .error .systemExit else .ok st1.recs

/-- Drain `FSeqGenerator.next` over a list of input lines into the list of
yielded records, or the uncaught exception. -/
def parseAll (lines : List (List Nat)) : Except PyErr (List FSeq) := do
  let st ← lines.foldlM processLine PState.init
  finishParse st

-- Row emission of `Complexity.generator` (smof.py lines 603-647).  The
-- numeric content of an emitted row (floating-point mean and variance,
-- lines 635-642) is outside this model; what is modelled is, per record,
-- whether the code reaches the `yield` on line 647 at all, which it does
-- only inside the final `else` branch (lines 634-647).

/-- Whether `Complexity.generator` emits an output row for a record with
sequence `s` (smof.py lines 630-647): records shorter than
`window_length + offset`, and records containing the drop character, fall
into `pass` branches that never reach the `yield`. -/
def complexityEmitsRow (w offset : Nat) (drop : Option (List Nat)) (s : List Nat) : Bool :=
  if s.length < w + offset then false
  else if (match drop with
           | some d => !d.isEmpty && pyStrIn d s
           | none => false) then false
  else true

/-- The 1-based `seq_id` values of the records for which
`Complexity.generator` yields an output row. -/
def complexityRowIds (w offset : Nat) (drop : Option (List Nat))
    (seqs : List (List Nat)) : List Nat :=
  seqs.enum.filterMap
    (fun p => if complexityEmitsRow w offset drop p.2 then some (p.1 + 1) else none)

-- ===================================================================
-- Helper lemmas
-- ===================================================================

/-- A successful `md5ascii` returns the (identity-modelled) digest of its
input. -/
lemma md5ascii_ok {s y : List Nat} (h : md5ascii s = .ok y) : y = s := by
  unfold md5ascii at h
  split_ifs at h
  · cases h; rfl

/-- A successful `d[k] += n` raises the total count of the dict by `n`. -/
lemma dictIncr_sum {d d' : Dict} {k : String} {n : Nat}
    (h : dictIncr d k n = .ok d') : sumDict d' = sumDict d + n := by
  induction d generalizing d' with
  | nil => simp [dictIncr] at h
  | cons p t ih =>
    obtain ⟨k', v⟩ := p
    unfold dictIncr at h
    split_ifs at h with hk
    · cases h
      simp [sumDict]
      omega
    · cases hrec : dictIncr t k n with
      | error e => rw [hrec] at h; simp [Except.map] at h
      | ok t' =>
        rw [hrec] at h
        simp [Except.map] at h
        subst h
        have := ih hrec
        simp [sumDict] at this ⊢
        omega

/-- A successful pass of the `add_seq` counter updates increments the
total of the `ncase` dict by exactly one (`_handle_case` runs once per
record). -/
lemma addSeqCounters_ncase {nt nc pf nf uf : Dict} {s : List Nat}
    {r : Dict × Dict × Dict × Dict × Dict}
    (h : addSeqCounters nt nc pf nf uf s = .ok r) :
    sumDict r.2.1 = sumDict nc + 1 := by
  unfold addSeqCounters at h
  split at h
  · exact absurd h (by simp)
  case _ uf1 heq1 =>
  split at h
  · exact absurd h (by simp)
  case _ nc1 heq2 =>
  split at h
  · exact absurd h (by simp)
  case _ nt1 heq3 =>
  have hsum := dictIncr_sum heq2
  split_ifs at h
  · split at h
    · exact absurd h (by simp)
    · cases h; simpa using hsum
  · split at h
    · exact absurd h (by simp)
    · cases h; simpa using hsum
  · cases h; simpa using hsum

/-- A successful `add_seq` inserts the sequence digest and the header
digest into their sets and counts one more record in `ncase`. -/
lemma add_seq_ok {st st' : SeqSummary} {q : FSeq}
    (h : st.add_seq q = .ok st') :
    st'.seqs = setInsert st.seqs q.seq ∧
    st'.headers = setInsert st.headers q.header ∧
    sumDict st'.ncase = sumDict st.ncase + 1 := by
  unfold SeqSummary.add_seq at h
  split at h
  · exact absurd h (by simp)
  case _ sdig hs =>
  split at h
  · exact absurd h (by simp)
  case _ hdig hh =>
  split at h
  · exact absurd h (by simp)
  case _ nt nc pf nf uf hc =>
  cases h
  refine ⟨by rw [md5ascii_ok hs], by rw [md5ascii_ok hh], ?_⟩
  simpa using addSeqCounters_ncase hc

/-- Folding one occurrence after upper-casing it gives the same folded
occurrence: `counter_caser` is invariant under `str.upper`. -/
lemma caserStep_upper (c : Nat) : caserStep (pyToUpper c) = caserStep c := by
  by_cases hl : 97 ≤ c ∧ c ≤ 122
  · have h1 : pyToUpper c = c - 32 := by simp [pyToUpper, hl]
    have h2 : pyIsUpper (c - 32) = true := by simp [pyIsUpper]; omega
    have h3 : pyIsUpper c = false := by simp [pyIsUpper]; omega
    have h4 : pyIsLower c = true := by simp [pyIsLower]; omega
    simp [caserStep, h1, h2, h3, h4]
  · have h1 : pyToUpper c = c := by simp [pyToUpper, hl]
    rw [h1]

/-- `counter_caser` gives the same folded table for a sequence and for
its upper-cased image. -/
lemma counter_caser_upper (s : List Nat) :
    counter_caser (s.map pyToUpper) = counter_caser s := by
  unfold counter_caser
  rw [List.filterMap_map]
  congr 1
  funext c
  exact caserStep_upper c

/-- None of the three case labels is a substring of `'upper'`, so the
`scase not in 'upper'` test of smof.py line 341 always triggers the fold. -/
lemma pyIn_handle_case (s : List Nat) : pyIn (handle_case s) "upper" = false := by
  unfold handle_case
  split_ifs <;> decide

/-- `add_seq` always classifies the `counter_caser`-folded table. -/
lemma classifySeq_fold (s : List Nat) :
    classifySeq s = handle_type (counter_caser s) := by
  unfold classifySeq foldedCounts
  rw [pyIn_handle_case]
  simp

-- ===================================================================
-- Claim theorems
-- ===================================================================

/-- Concrete summary after feeding the record `ATGGCCTAA` to a fresh
`SeqSummary`. -/
def summaryATGGCCTAA : SeqSummary :=
  (SeqSummary.init.add_seq ⟨pystr "h", pystr "ATGGCCTAA"⟩).toOption.getD SeqSummary.init

/-- Claim C1 (code bug evaluation): the dna record `ATGGCCTAA` satisfies
start, triple, stopLast (its final complete codon `TAA` is a stop codon)
and has no internal stop, so the claim assigns `start|coding|stop`; the
code instead increments `start|coding`, because
`range(0, len(seq.seq) - 3, 3)` on line 362 omits the final complete codon
(`codons_1 = [ATG, GCC]`), so `stop_1` tests the penultimate codon. -/
theorem orf_ATGGCCTAA_lacks_stop :
    classifySeq (pystr "ATGGCCTAA") = "dna" ∧
    codons_1 (pystr "ATGGCCTAA") = [pystr "ATG", pystr "GCC"] ∧
    dictGet summaryATGGCCTAA.nfeat "start|coding" = some 1 ∧
    dictGet summaryATGGCCTAA.nfeat "start|coding|stop" = some 0 := by decide

/-- Claim C2 (code bug evaluation): a record containing a gap character
does not complete `add_seq`; `_handle_gaps` (line 394) increments
`ufeat['ngapped']`, a key the constructor never creates (line 317 creates
`'gapped'`), so Python raises `KeyError: 'ngapped'`. -/
theorem gapped_record_keyerror :
    (pystr "A-C").any (fun c => GAP.contains c) = true ∧
    SeqSummary.init.add_seq ⟨pystr "h", pystr "A-C"⟩ =
      .error (.keyError "ngapped") := by decide

/-- Claim C3 (code bug evaluation): a record shorter than
`window_length + offset` produces no complexity output row at all — the
`yield` on line 647 sits inside the `else` branch, and the short-record
branch is `pass` — contradicting the claimed `identifier,NA,NA` row.
Shown here with the default parameters `w = 100`, `offset = 0` and the
one-character record `A`. -/
theorem complexity_short_record_no_row :
    (pystr "A").length < 100 + 0 ∧
    complexityRowIds 100 0 none [pystr "A"] = [] := by decide

/-- Claim C4 (counterexample): the input consisting of the single header
line `>a` (a record whose body is empty, header immediately followed by
end of input) is NOT a fatal format error: the parser yields the record
with an empty sequence and raises nothing. -/
theorem empty_body_yields_record :
    parseAll [pystr ">a"] = .ok [⟨pystr "a", pystr ""⟩] := by decide

/-- Claim C4 (amended): an empty record body is never a fatal format
error.  A header line arriving while the accumulated body is empty
flushes nothing (the previous empty record is silently dropped, no record
is yielded and no error raised), and at end of input a pending header
with an empty body is yielded as a record with an empty sequence. -/
theorem empty_body_no_format_error (st : PState) (line : List Nat)
    (c : Nat) (rest : List Nat)
    (hl : pyStrip line = c :: rest) (hc : c = ch '>')
    (hempty : st.seqList = []) (hheader : st.header ≠ []) :
    processLine st line =
      .ok { st with seqList := [],
                    header := rest.takeWhile (fun x => x ≠ ch '>') } ∧
    finishParse st = .ok (st.recs ++ [⟨st.header, []⟩]) := by
  constructor
  · unfold processLine
    rw [hl]
    simp [hc, hempty]
  · unfold finishParse flushRec
    have h1 : st.header.isEmpty = false := by
      cases hsh : st.header with
      | nil => exact absurd hsh hheader
      | cons a t => rfl
    simp [h1, hempty]

/-- Witness for the amended C4 theorem, at the state holding pending
header `a` with empty body and the incoming header line `>b`. -/
theorem empty_body_no_format_error_witness :
    processLine ⟨[], pystr "a", 0, []⟩ (pystr ">b") =
      .ok ⟨[], pystr "b", 0, []⟩ ∧
    finishParse ⟨[], pystr "a", 0, []⟩ = .ok [⟨pystr "a", []⟩] := by
  have h := empty_body_no_format_error ⟨[], pystr "a", 0, []⟩ (pystr ">b")
    (ch '>') (pystr "b") (by decide) rfl rfl (by decide)
  exact ⟨h.1.trans (by decide), h.2.trans (by decide)⟩

/-- Claim C5 (code bug evaluation): the record `ATG` is classified dna,
yet `add_seq` raises `IndexError` instead of assigning an ORF category:
`codons_1` is empty for sequences of length at most three (line 362's
`range(0, len - 3, 3)`), so `codons_1[0]` on line 363 fails. -/
theorem orf_short_sequence_indexerror :
    classifySeq (pystr "ATG") = "dna" ∧
    codons_1 (pystr "ATG") = [] ∧
    SeqSummary.init.add_seq ⟨pystr "h", pystr "ATG"⟩ = .error .indexError := by decide

/-- Concrete summary after feeding the protein record `SM*F` to a fresh
`SeqSummary`. -/
def summarySMstarF : SeqSummary :=
  (SeqSummary.init.add_seq ⟨pystr "h", pystr "SM*F"⟩).toOption.getD SeqSummary.init

/-- Claim C6 (code bug evaluation): the protein record `SM*F` has one
internal `*` (one `*` total, last character `F`), so the claim increments
internal-stop; the code leaves the counter at 0, because line 341's
substring test `scase not in 'upper'` is true even for `'uppercase'`, so
`counter_caser` always runs and drops `*` (neither upper nor lower) from
the counter, making `counts['*']` 0 on line 354. -/
theorem internal_stop_not_counted :
    (pystr "SM*F").count (ch '*') = 1 ∧
    (pystr "SM*F").getLast? = some (ch 'F') ∧
    dictGet summarySMstarF.ntype "prot" = some 1 ∧
    dictGet summarySMstarF.pfeat "internal-stop" = some 0 := by decide

/-- Claim C7 (code bug evaluation): blank lines are not ignored — a
whitespace-only line strips to the empty string and `line[0]` on line 113
raises `IndexError`, so inserting a blank line turns a successfully parsed
input into a crash. -/
theorem blank_line_indexerror :
    parseAll [pystr ">h", pystr "AC", pystr " "] = .error .indexError ∧
    parseAll [pystr ">h", pystr "AC"] = .ok [⟨pystr "h", pystr "AC"⟩] := by decide

/-- Claim C8 (confirmed): for every occurrence table within the
protein-plus-ambiguity alphabet, with no protein-exclusive residue and not
a clean nucleic-acid set, `_handle_type` returns dna (rna when U present)
when the `{A,C,G,T,U,N}` fraction exceeds 0.8, and `ambiguous` otherwise;
in particular `RYSWKMDBHV` classifies as ambiguous and `FRYSWKMDBHV` as
prot. -/
theorem handle_type_rule4 :
    (∀ s : List Nat,
      s.all (fun c => DNA.contains c) = false →
      s.all (fun c => RNA.contains c) = false →
      s.any (fun c => PROT_EXC.contains c) = false →
      s.all (fun c => (PROT ++ PROT_AMB).contains c) = true →
      handle_type s =
        (if 5 * s.countP (fun c => ACGTUN.contains c) > 4 * s.length then
          (if s.contains (ch 'U') then "rna" else "dna")
         else "ambiguous")) ∧
    classifySeq (pystr "RYSWKMDBHV") = "ambiguous" ∧
    classifySeq (pystr "FRYSWKMDBHV") = "prot" := by
  refine ⟨fun s h1 h2 h3 h4 => ?_, by decide, by decide⟩
  unfold handle_type
  rw [h1, h2, h3, h4]
  simp

/-- Witness for the C8 theorem at the occurrence table of `RYSWKMDBHV`,
which satisfies all four hypotheses. -/
theorem handle_type_rule4_witness :
    handle_type (pystr "RYSWKMDBHV") =
      (if 5 * (pystr "RYSWKMDBHV").countP (fun c => ACGTUN.contains c) >
          4 * (pystr "RYSWKMDBHV").length then
        (if (pystr "RYSWKMDBHV").contains (ch 'U') then "rna" else "dna")
       else "ambiguous") :=
  handle_type_rule4.1 (pystr "RYSWKMDBHV") (by decide) (by decide) (by decide) (by decide)

/-- Claim C9 (confirmed): molecule-type classification is
case-insensitive — for every sequence, the type computed by `add_seq`
(case analysis, fold, `_handle_type`) for the upper-cased sequence equals
the one computed for the original. -/
theorem classify_case_insensitive (s : List Nat) :
    classifySeq (s.map pyToUpper) = classifySeq s := by
  rw [classifySeq_fold, classifySeq_fold, counter_caser_upper]

/-- Claim C10 (confirmed): after a fresh aggregator processes two records
with identical sequence bytes but different header bytes, the sequence
digest set holds one element, the header digest set two, the report's
record count is two, and the sequence-duplication flag
(`nseqs != len(seqsum.seqs)`, smof.py line 1316) is raised. -/
theorem duplicate_seq_digests (r1 r2 : FSeq) (s1 s2 : SeqSummary)
    (h1 : SeqSummary.init.add_seq r1 = .ok s1)
    (h2 : s1.add_seq r2 = .ok s2)
    (hs : r1.seq = r2.seq) (hh : r1.header ≠ r2.header) :
    s2.seqs.length = 1 ∧ s2.headers.length = 2 ∧
    nseqsOf s2 = 2 ∧ hasDegenSeqs s2 = true := by
  obtain ⟨e1s, e1h, e1n⟩ := add_seq_ok h1
  obtain ⟨e2s, e2h, e2n⟩ := add_seq_ok h2
  have hinit_seqs : SeqSummary.init.seqs = [] := rfl
  have hinit_headers : SeqSummary.init.headers = [] := rfl
  have hinit_ncase : sumDict SeqSummary.init.ncase = 0 := by decide
  have hs1seqs : s1.seqs = [r1.seq] := by
    rw [e1s, hinit_seqs]; simp [setInsert]
  have hs1headers : s1.headers = [r1.header] := by
    rw [e1h, hinit_headers]; simp [setInsert]
  have hs2seqs : s2.seqs = [r1.seq] := by
    rw [e2s, hs1seqs, ← hs]; simp [setInsert]
  have hs2headers : s2.headers = [r1.header, r2.header] := by
    rw [e2h, hs1headers]
    simp [setInsert, hh.symm]
  have hn : nseqsOf s2 = 2 := by
    unfold nseqsOf
    rw [e2n, e1n, hinit_ncase]
  refine ⟨by rw [hs2seqs]; rfl, by rw [hs2headers]; rfl, hn, ?_⟩
  simp [hasDegenSeqs, hn, hs2seqs]

/-- Aggregator state after the first of two duplicate-sequence records. -/
def sniffA : SeqSummary :=
  (SeqSummary.init.add_seq ⟨pystr "a", pystr "GATTACA"⟩).toOption.getD SeqSummary.init

/-- Aggregator state after both duplicate-sequence records. -/
def sniffB : SeqSummary :=
  (sniffA.add_seq ⟨pystr "b", pystr "GATTACA"⟩).toOption.getD SeqSummary.init

/-- Witness for the C10 theorem: records `>a` and `>b`, both with
sequence `GATTACA`. -/
theorem duplicate_seq_digests_witness :
    sniffB.seqs.length = 1 ∧ sniffB.headers.length = 2 ∧
    nseqsOf sniffB = 2 ∧ hasDegenSeqs sniffB = true :=
  duplicate_seq_digests ⟨pystr "a", pystr "GATTACA"⟩ ⟨pystr "b", pystr "GATTACA"⟩
    sniffA sniffB (by decide) (by decide) rfl (by decide)
